import Mathlib

/-!
Shallow embedding of the spideradmin BFF server (the Express gateway in the
server file): environment-driven configuration, the duplicated dev-auth gate
middleware, the health route, the dev-auth-status route, the credential
injection middleware and the proxy path rewrite, plus the registration order
of these handlers.  Node lower-cases the keys of an incoming request's header
map, so the header field of a `Request` below stands for that already
normalised map, and lookup by the lower-cased configured name is exact lookup.
-/

namespace Spideradmin

/-- Primitive JSON values appearing in the gateway's own response bodies
(booleans and strings only; every body the server builds is a flat object). -/
inductive JPrim where
  | jb (b : Bool)
  | js (s : String)
deriving DecidableEq, Repr

/-- A flat JSON object, as the list of its fields in order. -/
abbrev JBody := List (String × JPrim)

/-- The process environment variables the server file reads
(each `none` when the variable is unset). -/
structure Env where
  BACKEND_BASE_URL : Option String
  BACKEND_API_TOKEN : Option String
  BFF_PORT : Option String
  BFF_DEV_AUTH_HEADER_NAME : Option String
  BFF_DEV_AUTH_TOKEN : Option String
deriving DecidableEq, Repr

/-- ECMAScript whitespace, restricted to the characters that can actually
occur here: space, tab, line feed, carriage return, vertical tab, form feed,
no-break space, byte order mark, and the two Unicode line separators. -/
def isJsWhitespace (c : Char) : Bool :=
  c = ' ' || c = '\t' || c = '\n' || c = '\r' ||
  c = Char.ofNat 11 || c = Char.ofNat 12 || c = Char.ofNat 160 ||
  c = Char.ofNat 65279 || c = Char.ofNat 8232 || c = Char.ofNat 8233

/-- JavaScript `s.trim()`: remove leading and trailing whitespace. -/
def jsTrim (s : String) : String :=
  ⟨((s.data.dropWhile isJsWhitespace).reverse.dropWhile isJsWhitespace).reverse⟩

/-- Lower-case one character (ASCII range, which covers header names). -/
def jsCharToLower (c : Char) : Char :=
  if 'A' ≤ c ∧ c ≤ 'Z' then Char.ofNat (c.toNat + 32) else c

/-- JavaScript `s.toLowerCase()` on the ASCII strings used as header names. -/
def jsToLower (s : String) : String :=
  ⟨s.data.map jsCharToLower⟩

/-- JavaScript `x || d` for an optional environment string: the default is
taken when the variable is unset or set to the empty string (falsy). -/
def orDefault (v : Option String) (d : String) : String :=
  match v with
  | none => d
  | some s => if s = "" then d else s

/-- The configuration constants computed at the top of the server file
(`BACKEND_BASE_URL`, `API_TOKEN`, `DEV_AUTH_HEADER_NAME`, `DEV_AUTH_TOKEN`). -/
structure Config where
  BACKEND_BASE_URL : String
  API_TOKEN : String
  DEV_AUTH_HEADER_NAME : String
  DEV_AUTH_TOKEN : String
deriving DecidableEq, Repr

/-- `BACKEND_BASE_URL || default`, `(BACKEND_API_TOKEN || "").trim()`,
`(BFF_DEV_AUTH_HEADER_NAME || "x-admin-ui-token").toLowerCase()`,
`(BFF_DEV_AUTH_TOKEN || "").trim()` from the server file. -/
def loadConfig (env : Env) : Config :=
  { BACKEND_BASE_URL := orDefault env.BACKEND_BASE_URL "http://localhost:7071"
    API_TOKEN := jsTrim (orDefault env.BACKEND_API_TOKEN "")
    DEV_AUTH_HEADER_NAME :=
      jsToLower (orDefault env.BFF_DEV_AUTH_HEADER_NAME "x-admin-ui-token")
    DEV_AUTH_TOKEN := jsTrim (orDefault env.BFF_DEV_AUTH_TOKEN "") }

/-- The value of `const PORT = process.env.BFF_PORT || 4000`: a string when
the variable is set and non-empty, the number `4000` otherwise. -/
inductive PortValue where
  | str (s : String)
  | num (n : Nat)
deriving DecidableEq, Repr

/-- `process.env.BFF_PORT || 4000`. -/
def loadPort (v : Option String) : PortValue :=
  match v with
  | none => .num 4000
  | some s => if s = "" then .num 4000 else .str s

/-- An inbound HTTP request as the gateway sees it: method, path (without the
query string), raw query string (empty when absent), Node's header map with
lower-cased keys, and body. -/
structure Request where
  method : String
  path : String
  query : String
  headers : List (String × String)
  body : String
deriving DecidableEq, Repr

/-- Lookup of `req.headers[name]` (`none` when the key is absent). -/
def getHeader : List (String × String) → String → Option String
  | [], _ => none
  | (k, v) :: rest, name => if k = name then some v else getHeader rest name

/-- Assignment `req.headers[name] = value`: replace the value when the key is
present, append the pair otherwise. -/
def setHeader : List (String × String) → String → String → List (String × String)
  | [], name, value => [(name, value)]
  | (k, v) :: rest, name, value =>
      if k = name then (name, value) :: rest
      else (k, v) :: setHeader rest name value

/-- The full request URL: path, then the query string after a question mark
when one is present. -/
def fullUrl (req : Request) : String :=
  req.path ++ (if req.query = "" then "" else "?" ++ req.query)

/-- What a gate middleware does with a request: call `next()`, or terminate by
sending a status and a JSON body. -/
inductive GateResult where
  | next
  | send (status : Nat) (body : JBody)
deriving DecidableEq, Repr

/-- The 401 JSON body built by the dev auth middleware. -/
def gateRejectBody (cfg : Config) : JBody :=
  [("error", .js "Unauthorized"),
   ("message", .js ("Missing or invalid dev auth token. Please send header \""
      ++ cfg.DEV_AUTH_HEADER_NAME ++ "\" with the correct value."))]

/-- The first copy of the dev auth middleware: when `DEV_AUTH_TOKEN` is empty
the check is skipped; otherwise the request header named by the configured
(lower-cased) name is read, defaulted to the empty string, trimmed, and the
request is rejected with 401 when the result is empty or differs from the
configured token. -/
def devAuthGate (cfg : Config) (req : Request) : GateResult :=
  if cfg.DEV_AUTH_TOKEN = "" then
    .next
  else
    let incomingToken := jsTrim ((getHeader req.headers cfg.DEV_AUTH_HEADER_NAME).getD "")
    if incomingToken = "" ∨ incomingToken ≠ cfg.DEV_AUTH_TOKEN then
      .send 401 (gateRejectBody cfg)
    else
      .next

/-- The second, duplicated copy of the dev auth middleware, transliterated
from its own lines of the server file. -/
def devAuthGate2 (cfg : Config) (req : Request) : GateResult :=
  if cfg.DEV_AUTH_TOKEN = "" then
    .next
  else
    let incomingToken := jsTrim ((getHeader req.headers cfg.DEV_AUTH_HEADER_NAME).getD "")
    if incomingToken = "" ∨ incomingToken ≠ cfg.DEV_AUTH_TOKEN then
      .send 401 (gateRejectBody cfg)
    else
      .next

/-- JavaScript falsiness of `req.headers[name]`: `undefined` or the empty
string. -/
def jsFalsyOpt : Option String → Bool
  | none => true
  | some s => s = ""

/-- The credential injection middleware on `/bff`: when the caller's
`auth-token` header is falsy or trims to the empty string, and `API_TOKEN` is
non-empty (truthy), set `req.headers["auth-token"] = API_TOKEN`; otherwise
leave the request untouched. -/
def injectAuthToken (apiToken : String) (req : Request) : Request :=
  let browserToken := getHeader req.headers "auth-token"
  if jsFalsyOpt browserToken ∨ jsTrim (browserToken.getD "") = "" then
    if apiToken ≠ "" then
      { req with headers := setHeader req.headers "auth-token" apiToken }
    else
      req
  else
    req

/-- `path.replace(/^\/bff/, "")`: the anchored literal match removes a leading
`/bff` when present and otherwise leaves the string unchanged. -/
def dropBffAtStart (p : String) : String :=
  match p.data with
  | '/' :: 'b' :: 'f' :: 'f' :: rest => ⟨rest⟩
  | _ => p

/-- The proxy's `pathRewrite` callback: strip a leading `/bff` and prepend
`/api/public`. -/
def pathRewrite (p : String) : String :=
  "/api/public" ++ dropBffAtStart p

/-- Express mount matching for `app.use("/bff", ...)`: the path is `/bff`
itself or continues with a slash. -/
def bffMount (p : String) : Bool :=
  p = "/bff" || p.data.take 5 = "/bff/".data

/-- The request the proxy sends to the backend: target base URL, rewritten
URL (path plus query), and the method, headers and body of the (possibly
credential-injected) inbound request. -/
structure OutboundRequest where
  target : String
  url : String
  method : String
  headers : List (String × String)
  body : String
deriving DecidableEq, Repr

/-- Build the outbound request `createProxyMiddleware` sends: the target is
`BACKEND_BASE_URL`, the URL is the inbound URL put through `pathRewrite`
(http-proxy-middleware keeps the mount path in the URL it rewrites), and
method, headers and body are forwarded. -/
def mkOutbound (cfg : Config) (r : Request) : OutboundRequest :=
  { target := cfg.BACKEND_BASE_URL
    url := pathRewrite (fullUrl r)
    method := r.method
    headers := r.headers
    body := r.body }

/-- Per-request outcome of the gateway: a response it produces itself, a
request forwarded to the backend, or no matching route. -/
inductive Outcome where
  | response (status : Nat) (body : JBody)
  | proxied (out : OutboundRequest)
  | noRoute
deriving DecidableEq, Repr

/-- The outbound request of an outcome, when the request was proxied. -/
def outboundOf : Outcome → Option OutboundRequest
  | .proxied out => some out
  | _ => none

/-- Whether an outcome is a 401 response (an auth-gate rejection). -/
def rejected401 : Outcome → Bool
  | .response s _ => s = 401
  | _ => false

/-- The handlers registered after the two gate middlewares, in registration
order: `app.get("/bff/dev-auth-status")`, then the first `/bff` stack
(credential injection followed by the proxy).  The proxy responds without
calling `next`, so the second, duplicated `/bff` stack is unreachable. -/
def postGate (cfg : Config) (req : Request) : Outcome :=
  if req.method = "GET" ∧ req.path = "/bff/dev-auth-status" then
    .response 200 [("ok", .jb true)]
  else if bffMount req.path then
    .proxied (mkOutbound cfg (injectAuthToken cfg.API_TOKEN req))
  else
    .noRoute

/-- The whole gateway, in registration order: `app.get("/health")`, the dev
auth middleware, its duplicate, then the gated handlers. -/
def handle (cfg : Config) (req : Request) : Outcome :=
  if req.method = "GET" ∧ req.path = "/health" then
    .response 200 [("ok", .jb true), ("backend", .js cfg.BACKEND_BASE_URL)]
  else
    match devAuthGate cfg req with
    | .send s b => .response s b
    | .next =>
        match devAuthGate2 cfg req with
        | .send s b => .response s b
        | .next => postGate cfg req

/-- The gateway with a single gate check, for comparison with `handle`. -/
def handleSingleGate (cfg : Config) (req : Request) : Outcome :=
  if req.method = "GET" ∧ req.path = "/health" then
    .response 200 [("ok", .jb true), ("backend", .js cfg.BACKEND_BASE_URL)]
  else
    match devAuthGate cfg req with
    | .send s b => .response s b
    | .next => postGate cfg req

end Spideradmin
namespace Spideradmin

/-! Helper lemmas about the embedded pipeline. -/

/-- The two copies of the dev auth middleware are the same function. -/
theorem gates_eq : devAuthGate2 = devAuthGate := rfl

/-- Removing a literal leading `/bff` from a string that starts with it
leaves the remainder. -/
theorem dropBff_append (rest : String) : dropBffAtStart ("/bff" ++ rest) = rest := by
  have h : ("/bff" ++ rest).data = '/' :: 'b' :: 'f' :: 'f' :: rest.data := by
    rw [String.data_append]
    rfl
  unfold dropBffAtStart
  rw [h]
  rfl

/-- Setting a header makes it readable back. -/
theorem getHeader_setHeader_self (hs : List (String × String)) (name v : String) :
    getHeader (setHeader hs name v) name = some v := by
  induction hs with
  | nil => simp [setHeader, getHeader]
  | cons p rest ih =>
      obtain ⟨k, w⟩ := p
      by_cases hk : k = name
      · simp [setHeader, hk, getHeader]
      · simp [setHeader, hk, getHeader, ih]

/-- Setting one header leaves every other header unchanged. -/
theorem getHeader_setHeader_of_ne (hs : List (String × String)) (name v n : String)
    (h : n ≠ name) :
    getHeader (setHeader hs name v) n = getHeader hs n := by
  induction hs with
  | nil => simp [setHeader, getHeader, Ne.symm h]
  | cons p rest ih =>
      obtain ⟨k, w⟩ := p
      by_cases hk : k = name
      · subst hk
        simp [setHeader, getHeader, Ne.symm h]
      · simp only [setHeader, if_neg hk, getHeader]
        by_cases hn : k = n
        · simp [hn]
        · simp [hn, ih]

/-- The condition under which the injection middleware considers the caller's
credential header absent or blank. -/
def callerBlank (r : Request) : Prop :=
  jsFalsyOpt (getHeader r.headers "auth-token") = true ∨
    jsTrim ((getHeader r.headers "auth-token").getD "") = ""

instance (r : Request) : Decidable (callerBlank r) := by
  unfold callerBlank
  infer_instance

/-- The injection middleware, written with its branches exposed. -/
theorem injectAuthToken_eq (t : String) (r : Request) :
    injectAuthToken t r =
      if callerBlank r then
        if t ≠ "" then { r with headers := setHeader r.headers "auth-token" t } else r
      else r := rfl

theorem inject_path (t : String) (r : Request) : (injectAuthToken t r).path = r.path := by
  rw [injectAuthToken_eq]
  split
  · split <;> rfl
  · rfl

theorem inject_query (t : String) (r : Request) : (injectAuthToken t r).query = r.query := by
  rw [injectAuthToken_eq]
  split
  · split <;> rfl
  · rfl

theorem inject_method (t : String) (r : Request) : (injectAuthToken t r).method = r.method := by
  rw [injectAuthToken_eq]
  split
  · split <;> rfl
  · rfl

theorem inject_body (t : String) (r : Request) : (injectAuthToken t r).body = r.body := by
  rw [injectAuthToken_eq]
  split
  · split <;> rfl
  · rfl

theorem inject_fullUrl (t : String) (r : Request) :
    fullUrl (injectAuthToken t r) = fullUrl r := by
  unfold fullUrl
  rw [inject_path, inject_query]

/-- `handle` with the duplicate gate collapsed (the two copies are equal and a
passing gate does not change the request). -/
theorem handle_eq_singleGate (cfg : Config) (req : Request) :
    handle cfg req = handleSingleGate cfg req := by
  unfold handle handleSingleGate
  split
  · rfl
  · rw [gates_eq]
    cases devAuthGate cfg req <;> rfl

/-- On a request the health route does not capture, `handle` is the gate
followed by the gated handlers. -/
theorem handle_gate_view (cfg : Config) (req : Request)
    (h : ¬(req.method = "GET" ∧ req.path = "/health")) :
    handle cfg req =
      match devAuthGate cfg req with
      | .send s b => .response s b
      | .next => postGate cfg req := by
  rw [handle_eq_singleGate]
  unfold handleSingleGate
  rw [if_neg h]

/-- With a non-empty configured token, the gate rejects exactly when the
trimmed incoming header value is empty or differs from the token. -/
theorem gate_send_iff (cfg : Config) (req : Request) (hTok : cfg.DEV_AUTH_TOKEN ≠ "") :
    devAuthGate cfg req = .send 401 (gateRejectBody cfg) ↔
      (jsTrim ((getHeader req.headers cfg.DEV_AUTH_HEADER_NAME).getD "") = "" ∨
       jsTrim ((getHeader req.headers cfg.DEV_AUTH_HEADER_NAME).getD "") ≠ cfg.DEV_AUTH_TOKEN) := by
  unfold devAuthGate
  rw [if_neg hTok]
  dsimp only
  by_cases hc :
      (jsTrim ((getHeader req.headers cfg.DEV_AUTH_HEADER_NAME).getD "") = "" ∨
       jsTrim ((getHeader req.headers cfg.DEV_AUTH_HEADER_NAME).getD "") ≠ cfg.DEV_AUTH_TOKEN)
  · rw [if_pos hc]
    simp [hc]
  · rw [if_neg hc]
    simp [hc]

/-- With a non-empty configured token, the gate passes exactly when the
trimmed incoming header value equals the token. -/
theorem gate_next_iff (cfg : Config) (req : Request) (hTok : cfg.DEV_AUTH_TOKEN ≠ "") :
    devAuthGate cfg req = .next ↔
      jsTrim ((getHeader req.headers cfg.DEV_AUTH_HEADER_NAME).getD "") = cfg.DEV_AUTH_TOKEN := by
  unfold devAuthGate
  rw [if_neg hTok]
  dsimp only
  by_cases hc :
      (jsTrim ((getHeader req.headers cfg.DEV_AUTH_HEADER_NAME).getD "") = "" ∨
       jsTrim ((getHeader req.headers cfg.DEV_AUTH_HEADER_NAME).getD "") ≠ cfg.DEV_AUTH_TOKEN)
  · rw [if_pos hc]
    constructor
    · intro h
      exact GateResult.noConfusion h
    · intro h
      rcases hc with h1 | h2
      · rw [h] at h1
        exact absurd h1.symm (Ne.symm hTok)
      · exact absurd h h2
  · rw [if_neg hc]
    push_neg at hc
    simp [hc.2]

/-- The gate either passes or sends the fixed 401 rejection. -/
theorem gate_cases (cfg : Config) (req : Request) :
    devAuthGate cfg req = .next ∨
      devAuthGate cfg req = .send 401 (gateRejectBody cfg) := by
  unfold devAuthGate
  dsimp only
  split
  · exact Or.inl rfl
  · split
    · exact Or.inr rfl
    · exact Or.inl rfl

/-- The gated handlers never produce a 401 response. -/
theorem rejected401_postGate (cfg : Config) (req : Request) :
    rejected401 (postGate cfg req) = false := by
  unfold postGate
  split
  · rfl
  · split
    · rfl
    · rfl

theorem postGate_ne_response401 (cfg : Config) (req : Request) (b : JBody) :
    postGate cfg req ≠ .response 401 b := by
  intro h
  have hr := rejected401_postGate cfg req
  rw [h] at hr
  simp [rejected401] at hr

/-- Inversion: a proxied outcome of `handle` is exactly the outbound request
built from the credential-injected inbound request. -/
theorem outbound_inversion (cfg : Config) (req : Request) (out : OutboundRequest)
    (h : outboundOf (handle cfg req) = some out) :
    out = mkOutbound cfg (injectAuthToken cfg.API_TOKEN req) := by
  rw [handle_eq_singleGate] at h
  unfold handleSingleGate at h
  split at h
  · simp [outboundOf] at h
  · rcases gate_cases cfg req with hg | hg <;> rw [hg] at h
    · unfold postGate at h
      by_cases hs : req.method = "GET" ∧ req.path = "/bff/dev-auth-status"
      · rw [if_pos hs] at h
        simp [outboundOf] at h
      · rw [if_neg hs] at h
        by_cases hb : bffMount req.path = true
        · rw [if_pos hb] at h
          simp only [outboundOf, Option.some.injEq] at h
          exact h.symm
        · rw [if_neg hb] at h
          simp [outboundOf] at h
    · simp [outboundOf] at h

end Spideradmin
namespace Spideradmin

/-! Concrete configurations and requests used to exercise the theorems. -/

/-- Configuration with the gate disabled and no backend token. -/
def cfgOpen : Config :=
  { BACKEND_BASE_URL := "http://localhost:7071", API_TOKEN := ""
    DEV_AUTH_HEADER_NAME := "x-admin-ui-token", DEV_AUTH_TOKEN := "" }

/-- Configuration with the gate enabled. -/
def cfgGate : Config :=
  { BACKEND_BASE_URL := "http://localhost:7071", API_TOKEN := ""
    DEV_AUTH_HEADER_NAME := "x-admin-ui-token", DEV_AUTH_TOKEN := "secret123" }

/-- Configuration with a backend token but the gate disabled. -/
def cfgInject : Config :=
  { BACKEND_BASE_URL := "http://localhost:7071", API_TOKEN := "bk-tok"
    DEV_AUTH_HEADER_NAME := "x-admin-ui-token", DEV_AUTH_TOKEN := "" }

/-- Configuration with both the gate and a backend token. -/
def cfgFull : Config :=
  { BACKEND_BASE_URL := "http://localhost:7071", API_TOKEN := "bk-tok"
    DEV_AUTH_HEADER_NAME := "x-admin-ui-token", DEV_AUTH_TOKEN := "secret123" }

/-- A bare GET request under the proxied path. -/
def reqBare : Request :=
  { method := "GET", path := "/bff/providers", query := "", headers := [], body := "" }

/-- The same request carrying the correct gate header. -/
def reqGated : Request :=
  { method := "GET", path := "/bff/providers", query := ""
    headers := [("x-admin-ui-token", "secret123")], body := "" }

/-- A health-check request. -/
def reqHealth : Request :=
  { method := "GET", path := "/health", query := "", headers := [], body := "" }

/-- A status-probe request carrying the correct gate header. -/
def reqStatus : Request :=
  { method := "GET", path := "/bff/dev-auth-status", query := ""
    headers := [("x-admin-ui-token", "secret123")], body := "" }

/-- A proxied request with a query string and no credential header. -/
def reqQuery : Request :=
  { method := "GET", path := "/bff/inject-provider", query := "provider=gem"
    headers := [], body := "" }

/-- A proxied request with the gate header and another header, no credential. -/
def reqBoth : Request :=
  { method := "GET", path := "/bff/providers", query := ""
    headers := [("x-admin-ui-token", "secret123"), ("other-header", "v")], body := "" }

/-- An environment supplying only a mixed-case gate header name. -/
def envHdr : Env :=
  { BACKEND_BASE_URL := none, BACKEND_API_TOKEN := none, BFF_PORT := none
    BFF_DEV_AUTH_HEADER_NAME := some "X-Admin-UI-Token", BFF_DEV_AUTH_TOKEN := none }

/-! The claims. -/

/-- Claim C1: for a request to a non-health path, when the configured dev-auth
token is non-empty, the gateway responds 401 with the Unauthorized JSON body
naming the expected gate header exactly when the gate header (looked up by the
configured lower-cased name) is missing, empty, or not equal after trimming to
the token; when the trimmed header equals the token the gate does not reject
and the request proceeds to the gated handlers. -/
theorem C1_gate_reject_iff (cfg : Config) (req : Request)
    (hTok : cfg.DEV_AUTH_TOKEN ≠ "") (hPath : req.path ≠ "/health") :
    (handle cfg req = .response 401 (gateRejectBody cfg) ↔
      (getHeader req.headers cfg.DEV_AUTH_HEADER_NAME = none ∨
       jsTrim ((getHeader req.headers cfg.DEV_AUTH_HEADER_NAME).getD "") = "" ∨
       jsTrim ((getHeader req.headers cfg.DEV_AUTH_HEADER_NAME).getD "") ≠ cfg.DEV_AUTH_TOKEN))
    ∧ (jsTrim ((getHeader req.headers cfg.DEV_AUTH_HEADER_NAME).getD "") = cfg.DEV_AUTH_TOKEN →
        handle cfg req = postGate cfg req) := by
  have hnh : ¬(req.method = "GET" ∧ req.path = "/health") := fun hc => hPath hc.2
  have hview := handle_gate_view cfg req hnh
  constructor
  · constructor
    · intro h
      rcases gate_cases cfg req with hg | hg
      · rw [hview, hg] at h
        exact absurd h (postGate_ne_response401 cfg req _)
      · exact Or.inr ((gate_send_iff cfg req hTok).mp hg)
    · intro h
      have hcond :
          (jsTrim ((getHeader req.headers cfg.DEV_AUTH_HEADER_NAME).getD "") = "" ∨
           jsTrim ((getHeader req.headers cfg.DEV_AUTH_HEADER_NAME).getD "") ≠ cfg.DEV_AUTH_TOKEN) := by
        rcases h with h1 | h2 | h3
        · left
          rw [h1]
          rfl
        · exact Or.inl h2
        · exact Or.inr h3
      rw [hview, (gate_send_iff cfg req hTok).mpr hcond]
  · intro hEq
    rw [hview, (gate_next_iff cfg req hTok).mpr hEq]

/-- Witness for C1: with token secret123, a headerless request to a proxied
path is rejected 401 with the Unauthorized body, and the same request carrying
the correct header proceeds past the gate. -/
theorem C1_witness :
    cfgGate.DEV_AUTH_TOKEN ≠ "" ∧ reqBare.path ≠ "/health"
    ∧ handle cfgGate reqBare = .response 401 (gateRejectBody cfgGate)
    ∧ handle cfgGate reqGated = postGate cfgGate reqGated := by
  refine ⟨by decide, by decide, ?_, ?_⟩
  · exact (C1_gate_reject_iff cfgGate reqBare (by decide) (by decide)).1.mpr (Or.inl rfl)
  · exact (C1_gate_reject_iff cfgGate reqGated (by decide) (by decide)).2 (by decide)

/-- Claim C2: with an empty configured dev-auth token the gate always passes,
no request is ever rejected with 401, and every request to a non-health path
reaches the gated handlers (the forwarding logic). -/
theorem C2_gate_disabled (cfg : Config) (req : Request) (h : cfg.DEV_AUTH_TOKEN = "") :
    devAuthGate cfg req = .next
    ∧ rejected401 (handle cfg req) = false
    ∧ (req.path ≠ "/health" → handle cfg req = postGate cfg req) := by
  have hg : devAuthGate cfg req = .next := by
    unfold devAuthGate
    rw [if_pos h]
  refine ⟨hg, ?_, ?_⟩
  · by_cases hh : req.method = "GET" ∧ req.path = "/health"
    · unfold handle
      rw [if_pos hh]
      rfl
    · rw [handle_gate_view cfg req hh, hg]
      exact rejected401_postGate cfg req
  · intro hp
    rw [handle_gate_view cfg req (fun hc => hp hc.2), hg]

/-- Witness for C2: with the token unset, a headerless request to a proxied
path passes the gate, is not 401-rejected, and reaches the gated handlers. -/
theorem C2_witness :
    cfgOpen.DEV_AUTH_TOKEN = ""
    ∧ devAuthGate cfgOpen reqBare = .next
    ∧ rejected401 (handle cfgOpen reqBare) = false
    ∧ handle cfgOpen reqBare = postGate cfgOpen reqBare := by
  have h := C2_gate_disabled cfgOpen reqBare rfl
  exact ⟨rfl, h.1, h.2.1, h.2.2 (by decide)⟩

/-- Claim C3: for every forwarded request, when the caller's auth-token header
is absent or blank and the server-side token is non-empty the outbound request
carries the server-side token; when it is absent or blank and no server-side
token is configured the headers are unchanged; when it is non-blank the
headers are forwarded unchanged (never overridden). -/
theorem C3_credential_injection (cfg : Config) (req : Request) (out : OutboundRequest)
    (h : outboundOf (handle cfg req) = some out) :
    (callerBlank req → cfg.API_TOKEN ≠ "" →
        getHeader out.headers "auth-token" = some cfg.API_TOKEN)
    ∧ (callerBlank req → cfg.API_TOKEN = "" → out.headers = req.headers)
    ∧ (¬ callerBlank req → out.headers = req.headers) := by
  have hout := outbound_inversion cfg req out h
  have hOutHeaders : out.headers = (injectAuthToken cfg.API_TOKEN req).headers := by
    rw [hout]
    rfl
  refine ⟨?_, ?_, ?_⟩
  · intro hb ht
    rw [hOutHeaders, injectAuthToken_eq, if_pos hb, if_pos ht]
    exact getHeader_setHeader_self req.headers "auth-token" cfg.API_TOKEN
  · intro hb ht
    rw [hOutHeaders, injectAuthToken_eq, if_pos hb, if_neg (fun hc => hc ht)]
  · intro hb
    rw [hOutHeaders, injectAuthToken_eq, if_neg hb]

/-- Witness for C3: with backend token bk-tok and a headerless request, the
outbound request carries auth-token bk-tok. -/
theorem C3_witness :
    outboundOf (handle cfgInject reqBare)
      = some (mkOutbound cfgInject (injectAuthToken cfgInject.API_TOKEN reqBare))
    ∧ callerBlank reqBare
    ∧ cfgInject.API_TOKEN ≠ ""
    ∧ getHeader (mkOutbound cfgInject (injectAuthToken cfgInject.API_TOKEN reqBare)).headers
        "auth-token" = some cfgInject.API_TOKEN := by
  have h := C3_credential_injection cfgInject reqBare
    (mkOutbound cfgInject (injectAuthToken cfgInject.API_TOKEN reqBare)) (by decide)
  exact ⟨by decide, Or.inl rfl, by decide, h.1 (Or.inl rfl) (by decide)⟩

/-- Claim C4: every forwarded request whose path is /bff followed by a suffix
is sent to the configured backend base URL with URL /api/public plus that
suffix and the unchanged query string, with method and body preserved. -/
theorem C4_path_rewrite (cfg : Config) (req : Request) (out : OutboundRequest) (S : String)
    (h : outboundOf (handle cfg req) = some out) (hPath : req.path = "/bff" ++ S) :
    out.url = "/api/public" ++ (S ++ (if req.query = "" then "" else "?" ++ req.query))
    ∧ out.method = req.method
    ∧ out.body = req.body
    ∧ out.target = cfg.BACKEND_BASE_URL := by
  have hout := outbound_inversion cfg req out h
  rw [hout]
  refine ⟨?_, inject_method cfg.API_TOKEN req, inject_body cfg.API_TOKEN req, rfl⟩
  show pathRewrite (fullUrl (injectAuthToken cfg.API_TOKEN req)) = _
  rw [inject_fullUrl]
  unfold fullUrl pathRewrite
  rw [hPath, String.append_assoc, dropBff_append]

/-- Witness for C4: a request to /bff/inject-provider?provider=gem is forwarded
to /api/public/inject-provider?provider=gem with method and body preserved. -/
theorem C4_witness :
    outboundOf (handle cfgOpen reqQuery)
      = some (mkOutbound cfgOpen (injectAuthToken cfgOpen.API_TOKEN reqQuery))
    ∧ reqQuery.path = "/bff" ++ "/inject-provider"
    ∧ (mkOutbound cfgOpen (injectAuthToken cfgOpen.API_TOKEN reqQuery)).url
        = "/api/public" ++ ("/inject-provider"
            ++ (if reqQuery.query = "" then "" else "?" ++ reqQuery.query))
    ∧ (mkOutbound cfgOpen (injectAuthToken cfgOpen.API_TOKEN reqQuery)).method = reqQuery.method
    ∧ (mkOutbound cfgOpen (injectAuthToken cfgOpen.API_TOKEN reqQuery)).target
        = cfgOpen.BACKEND_BASE_URL := by
  have h := C4_path_rewrite cfgOpen reqQuery
    (mkOutbound cfgOpen (injectAuthToken cfgOpen.API_TOKEN reqQuery)) "/inject-provider"
    (by decide) (by decide)
  exact ⟨by decide, by decide, h.1, h.2.1, h.2.2.2⟩

/-- Claim C5: every GET request to /health gets the 200 liveness body echoing
the configured backend URL, for every configuration and header map, so the
gate is never applied to this route. -/
theorem C5_health (cfg : Config) (req : Request)
    (hm : req.method = "GET") (hp : req.path = "/health") :
    handle cfg req =
      .response 200 [("ok", .jb true), ("backend", .js cfg.BACKEND_BASE_URL)] := by
  unfold handle
  rw [if_pos ⟨hm, hp⟩]

/-- Witness for C5: with the gate enabled and no gate header, GET /health
still responds 200 with the backend URL. -/
theorem C5_witness :
    reqHealth.method = "GET" ∧ reqHealth.path = "/health"
    ∧ handle cfgGate reqHealth =
        .response 200 [("ok", .jb true), ("backend", .js cfgGate.BACKEND_BASE_URL)] :=
  ⟨rfl, rfl, C5_health cfgGate reqHealth rfl rfl⟩

/-- Claim C6: the two auth-gate middleware functions registered in sequence
are the same function, and the two-gate pipeline is behaviorally equal, on
every configuration and request, to the pipeline with a single gate check. -/
theorem C6_duplicate_gate :
    devAuthGate2 = devAuthGate
    ∧ ∀ (cfg : Config) (req : Request), handle cfg req = handleSingleGate cfg req :=
  ⟨gates_eq, handle_eq_singleGate⟩

/-- Claim C7: a GET request to /bff/dev-auth-status that has passed the gate
is answered 200 with body ok:true by the gateway itself and is not forwarded
(the proxy handler is registered after this route and is not reached). -/
theorem C7_dev_auth_status (cfg : Config) (req : Request)
    (hm : req.method = "GET") (hp : req.path = "/bff/dev-auth-status")
    (hg : devAuthGate cfg req = .next) :
    handle cfg req = .response 200 [("ok", .jb true)] := by
  have hnh : ¬(req.method = "GET" ∧ req.path = "/health") := by
    intro hc
    rw [hp] at hc
    exact absurd hc.2 (by decide)
  rw [handle_gate_view cfg req hnh, hg]
  show postGate cfg req = _
  unfold postGate
  rw [if_pos ⟨hm, hp⟩]

/-- Witness for C7: with the gate enabled and the correct header, GET
/bff/dev-auth-status responds 200 ok:true. -/
theorem C7_witness :
    reqStatus.method = "GET" ∧ reqStatus.path = "/bff/dev-auth-status"
    ∧ devAuthGate cfgGate reqStatus = .next
    ∧ handle cfgGate reqStatus = .response 200 [("ok", .jb true)] := by
  refine ⟨rfl, rfl, by decide, ?_⟩
  exact C7_dev_auth_status cfgGate reqStatus rfl rfl (by decide)

/-- Claim C8: an empty environment yields exactly the documented defaults
(backend URL, port 4000, gate header name, both tokens empty); for supplied
values both secret tokens are whitespace-trimmed and the gate header name is
lower-cased. -/
theorem C8_config_defaults :
    (loadConfig ⟨none, none, none, none, none⟩ =
        { BACKEND_BASE_URL := "http://localhost:7071", API_TOKEN := ""
          DEV_AUTH_HEADER_NAME := "x-admin-ui-token", DEV_AUTH_TOKEN := "" }
      ∧ loadPort none = .num 4000)
    ∧ (∀ env : Env,
        (loadConfig env).API_TOKEN = jsTrim (env.BACKEND_API_TOKEN.getD "")
        ∧ (loadConfig env).DEV_AUTH_TOKEN = jsTrim (env.BFF_DEV_AUTH_TOKEN.getD ""))
    ∧ (∀ (env : Env) (s : String), env.BFF_DEV_AUTH_HEADER_NAME = some s → s ≠ "" →
        (loadConfig env).DEV_AUTH_HEADER_NAME = jsToLower s) := by
  refine ⟨⟨rfl, rfl⟩, ?_, ?_⟩
  · intro env
    constructor
    · show jsTrim (orDefault env.BACKEND_API_TOKEN "") = _
      cases henv : env.BACKEND_API_TOKEN with
      | none => rfl
      | some s =>
          show jsTrim (if s = "" then "" else s) = jsTrim s
          by_cases hs : s = ""
          · rw [if_pos hs, hs]
          · rw [if_neg hs]
    · show jsTrim (orDefault env.BFF_DEV_AUTH_TOKEN "") = _
      cases henv : env.BFF_DEV_AUTH_TOKEN with
      | none => rfl
      | some s =>
          show jsTrim (if s = "" then "" else s) = jsTrim s
          by_cases hs : s = ""
          · rw [if_pos hs, hs]
          · rw [if_neg hs]
  · intro env s hsome hne
    show jsToLower (orDefault env.BFF_DEV_AUTH_HEADER_NAME "x-admin-ui-token") = _
    rw [hsome]
    show jsToLower (if s = "" then "x-admin-ui-token" else s) = jsToLower s
    rw [if_neg hne]

/-- Witness for C8: the environment supplying X-Admin-UI-Token yields the
lower-cased gate header name. -/
theorem C8_witness :
    envHdr.BFF_DEV_AUTH_HEADER_NAME = some "X-Admin-UI-Token"
    ∧ "X-Admin-UI-Token" ≠ ""
    ∧ (loadConfig envHdr).DEV_AUTH_HEADER_NAME = jsToLower "X-Admin-UI-Token"
    ∧ (loadConfig envHdr).DEV_AUTH_HEADER_NAME = "x-admin-ui-token" := by
  have h := C8_config_defaults
  exact ⟨rfl, by decide, h.2.2 envHdr "X-Admin-UI-Token" rfl (by decide), by decide⟩

/-- Claim C9: a request the auth gate rejects is never forwarded: the outcome
carries no outbound request, so the backend observes nothing for it. -/
theorem C9_reject_no_forward (cfg : Config) (req : Request) (s : Nat) (b : JBody)
    (hg : devAuthGate cfg req = .send s b) :
    outboundOf (handle cfg req) = none := by
  by_cases hh : req.method = "GET" ∧ req.path = "/health"
  · unfold handle
    rw [if_pos hh]
    rfl
  · rw [handle_gate_view cfg req hh, hg]
    rfl

/-- Witness for C9: the gate rejects the headerless request under the enabled
gate, and no outbound request is produced. -/
theorem C9_witness :
    devAuthGate cfgGate reqBare = .send 401 (gateRejectBody cfgGate)
    ∧ outboundOf (handle cfgGate reqBare) = none :=
  ⟨by decide, C9_reject_no_forward cfgGate reqBare 401 (gateRejectBody cfgGate) (by decide)⟩

/-- Claim C10: the credential-injection step changes at most the auth-token
header: every forwarded request reaches the backend with every other header
(the gate header included — it is not stripped), the method, the body, and
the rewritten path-plus-query of the original request. -/
theorem C10_injection_frame (cfg : Config) (req : Request) (out : OutboundRequest)
    (h : outboundOf (handle cfg req) = some out) :
    (∀ n : String, n ≠ "auth-token" → getHeader out.headers n = getHeader req.headers n)
    ∧ out.method = req.method
    ∧ out.body = req.body
    ∧ out.url = pathRewrite (fullUrl req) := by
  have hout := outbound_inversion cfg req out h
  rw [hout]
  refine ⟨?_, inject_method cfg.API_TOKEN req, inject_body cfg.API_TOKEN req, ?_⟩
  · intro n hn
    show getHeader (injectAuthToken cfg.API_TOKEN req).headers n = getHeader req.headers n
    rw [injectAuthToken_eq]
    by_cases hb : callerBlank req
    · rw [if_pos hb]
      by_cases ht : cfg.API_TOKEN ≠ ""
      · rw [if_pos ht]
        exact getHeader_setHeader_of_ne req.headers "auth-token" cfg.API_TOKEN n hn
      · rw [if_neg ht]
    · rw [if_neg hb]
  · show pathRewrite (fullUrl (injectAuthToken cfg.API_TOKEN req)) = _
    rw [inject_fullUrl]

/-- Witness for C10: with both gate and backend token configured, the gate
header survives injection unchanged and method and URL are preserved. -/
theorem C10_witness :
    outboundOf (handle cfgFull reqBoth)
      = some (mkOutbound cfgFull (injectAuthToken cfgFull.API_TOKEN reqBoth))
    ∧ getHeader (mkOutbound cfgFull (injectAuthToken cfgFull.API_TOKEN reqBoth)).headers
        "x-admin-ui-token" = getHeader reqBoth.headers "x-admin-ui-token"
    ∧ getHeader (mkOutbound cfgFull (injectAuthToken cfgFull.API_TOKEN reqBoth)).headers
        "other-header" = getHeader reqBoth.headers "other-header"
    ∧ (mkOutbound cfgFull (injectAuthToken cfgFull.API_TOKEN reqBoth)).method = reqBoth.method
    ∧ (mkOutbound cfgFull (injectAuthToken cfgFull.API_TOKEN reqBoth)).url
        = pathRewrite (fullUrl reqBoth) := by
  have h := C10_injection_frame cfgFull reqBoth
    (mkOutbound cfgFull (injectAuthToken cfgFull.API_TOKEN reqBoth)) (by decide)
  exact ⟨by decide, h.1 "x-admin-ui-token" (by decide), h.1 "other-header" (by decide),
    h.2.1, h.2.2.2⟩

end Spideradmin
